import Mathlib

/-!
Verification of the FHIR resource read/compose/submit logic of the
ontarget-ehr-interface repository, as a shallow embedding in Lean 4.

Modelling conventions, used throughout:
* JavaScript numbers are modelled as rationals (`ℚ`); the number-to-string
  conversion performed by template interpolation is modelled by `renderNum`,
  the canonical shortest decimal rendering (`90 ↦ "90"`, `14.5 ↦ "14.5"`),
  matching the JavaScript rendering on all decimal values this code handles.
* Absent JSON fields are modelled as `none` / `[]`; JavaScript truthiness of
  strings and numbers is modelled by `strTruthy` / `jsOrStr` / `jsNumOr`.
* `parseFloat` models JavaScript parseFloat on plain decimal literals
  (optional sign, digits, optional fraction; longest valid numeric head of the
  string); `none` models `NaN`.
* String trimming, lower-casing and splitting are defined over the character
  list of the string, so that every definition evaluates inside the kernel.
* `new Date(s)` never throws in JavaScript; an unparsable string yields an
  Invalid Date which `toLocaleDateString` renders as `"Invalid Date"`.  The
  embedding `formatDate` reflects this, and the source's `catch` branch
  (returning the raw string) is unreachable.  Dates are rendered from their
  parsed components (the en-US `"Mon D, YYYY"` shape) without a time zone.
-/

deriving instance DecidableEq for Except

namespace EHR

/-- Models the JavaScript string default `a || b` where `a` may be absent and
the empty string is falsy. -/
def jsOrStr (a : Option String) (b : String) : String :=
  match a with
  | some s => if s = "" then b else s
  | none => b

/-- JavaScript truthiness of an optional string: absent and empty are falsy. -/
def strTruthy (s : Option String) : Bool :=
  match s with
  | some t => !(t == "")
  | none => false

/-- Whitespace-trimming over the character list (JavaScript `trim()`). -/
def trimStr (s : String) : String :=
  String.mk (((s.data.dropWhile Char.isWhitespace).reverse.dropWhile
    Char.isWhitespace).reverse)

/-- ASCII lower-casing over the character list (JavaScript `toLowerCase()`). -/
def lowerStr (s : String) : String :=
  String.mk (s.data.map Char.toLower)

/-- Models JavaScript `v || d` for an optional number, where `0` is falsy. -/
def jsNumOr (v : Option ℚ) (d : ℚ) : ℚ :=
  match v with
  | some x => if x = 0 then d else x
  | none => d

/-- The provided-field test of `LabValueForm.handleSubmit`:
`formData.x && formData.x.trim() !== ''`. -/
def jsProvided (s : String) : Bool :=
  !(s == "") && !(trimStr s == "")

/-! ### JavaScript number parsing and rendering -/

/-- Longest leading run of decimal digits, together with the rest of the input. -/
def takeDigits : List Char → List Char × List Char
  | [] => ([], [])
  | c :: cs =>
    if c.isDigit then
      let p := takeDigits cs
      (c :: p.1, p.2)
    else ([], c :: cs)

/-- Numeric value of a digit list, most significant digit first. -/
def digitsToNat (l : List Char) : Nat :=
  l.foldl (fun a c => a * 10 + (c.toNat - 48)) 0

/-- Model of JavaScript `parseFloat` on plain decimal literals: skip leading
whitespace, optional sign, integer digits, optional `.` and fraction digits,
ignoring any trailing garbage.  `none` models `NaN` (no digits found). -/
def parseFloat (s : String) : Option ℚ :=
  let l := s.data.dropWhile Char.isWhitespace
  let signAndRest : Bool × List Char :=
    match l with
    | '-' :: r => (true, r)
    | '+' :: r => (false, r)
    | _ => (false, l)
  let ip := takeDigits signAndRest.2
  let fp : List Char :=
    match ip.2 with
    | '.' :: r => (takeDigits r).1
    | _ => []
  if ip.1 = [] ∧ fp = [] then none
  else
    let scaled : Int := (digitsToNat ip.1 * 10 ^ fp.length + digitsToNat fp : Nat)
    some (mkRat (if signAndRest.1 then -scaled else scaled) (10 ^ fp.length))

/-- Smallest exponent `k ≤ d` with `d ∣ 10 ^ k` (returns `0` if none exists;
every denominator produced by `parseFloat` divides a power of ten). -/
def decExp (d : Nat) : Nat :=
  (((List.range (d + 1)).find? fun k => 10 ^ k % d = 0).getD 0)

/-- Left-pad a digit string with zeros to the given width. -/
def padZeros (s : String) (k : Nat) : String :=
  String.mk (List.replicate (k - s.length) '0') ++ s

/-- Canonical decimal rendering of a nonnegative decimal rational, as
JavaScript template interpolation renders the corresponding number
(`90 ↦ "90"`, `29/2 ↦ "14.5"`, `1/100 ↦ "0.01"`). -/
def renderNonneg (q : ℚ) : String :=
  let k := decExp q.den
  let m := q.num.toNat * (10 ^ k / q.den)
  if k = 0 then toString m
  else toString (m / 10 ^ k) ++ "." ++ padZeros (toString (m % 10 ^ k)) k

/-- Canonical decimal rendering of a decimal rational (JavaScript number to
string conversion in the model). -/
def renderNum (q : ℚ) : String :=
  if q.num < 0 then "-" ++ renderNonneg (-q) else renderNonneg q

/-! ### Substring search (JavaScript `String.includes`) -/

/-- Does the first list occur as a pattern at the head of the second list. -/
def matchFront : List Char → List Char → Bool
  | [], _ => true
  | _ :: _, [] => false
  | a :: as, b :: bs => (a == b) && matchFront as bs

/-- Does the first list occur as a contiguous pattern anywhere in the second. -/
def findSub : List Char → List Char → Bool
  | p, [] => matchFront p []
  | p, b :: bs => matchFront p (b :: bs) || findSub p bs

/-- Models JavaScript `s.includes(pat)`. -/
def hasSub (s pat : String) : Bool := findSub pat.data s.data

/-! ### Date parsing and locale rendering (PatientList.formatDate et al.) -/

/-- A parsed calendar date. -/
structure YMD where
  year : Nat
  month : Nat
  day : Nat
deriving DecidableEq

/-- Leap-year test (Gregorian). -/
def isLeap (y : Nat) : Bool :=
  (y % 4 == 0 && y % 100 != 0) || y % 400 == 0

/-- Days in the given month of the given year. -/
def daysInMonth (y m : Nat) : Nat :=
  if m = 2 then (if isLeap y then 29 else 28)
  else if m = 4 ∨ m = 6 ∨ m = 9 ∨ m = 11 then 30
  else 31

/-- All-digit test for a character list. -/
def allDigits (l : List Char) : Bool := l.all Char.isDigit

/-- Split a character list at each occurrence of the given separator. -/
def splitOnChar (sep : Char) : List Char → List (List Char)
  | [] => [[]]
  | c :: cs =>
    let r := splitOnChar sep cs
    if c == sep then [] :: r
    else
      match r with
      | [] => [[c]]
      | g :: gs => (c :: g) :: gs

/-- Parse a strict ISO 8601 calendar date `YYYY-MM-DD`, the format this
application feeds to `new Date(...)`; out-of-range components yield an
Invalid Date, modelled as `none`. -/
def parseISODate (s : String) : Option YMD :=
  match splitOnChar '-' s.data with
  | [y, m, d] =>
    if allDigits y ∧ allDigits m ∧ allDigits d ∧
        y.length = 4 ∧ m.length = 2 ∧ d.length = 2 then
      let yv := digitsToNat y
      let mv := digitsToNat m
      let dv := digitsToNat d
      if 1 ≤ mv ∧ mv ≤ 12 ∧ 1 ≤ dv ∧ dv ≤ daysInMonth yv mv then
        some ⟨yv, mv, dv⟩
      else none
    else none
  | _ => none

/-- en-US abbreviated month name. -/
def monthAbbrev : Nat → String
  | 1 => "Jan"
  | 2 => "Feb"
  | 3 => "Mar"
  | 4 => "Apr"
  | 5 => "May"
  | 6 => "Jun"
  | 7 => "Jul"
  | 8 => "Aug"
  | 9 => "Sep"
  | 10 => "Oct"
  | 11 => "Nov"
  | 12 => "Dec"
  | _ => ""

/-- en-US rendering with numeric year, abbreviated month and numeric day,
as the en-US `toLocaleDateString` call with numeric year, short month and
numeric day produces. -/
def renderLocaleDate (d : YMD) : String :=
  monthAbbrev d.month ++ " " ++ toString d.day ++ ", " ++ toString d.year

/-- The date formatter shared by PatientList, PatientMedications and
PatientObservations.  Absent input yields `"N/A"`; a parsable date is
locale-rendered; an unparsable string yields `"Invalid Date"` (the
JavaScript `Date` constructor never throws, so the source's `catch`
branch returning the raw string is unreachable). -/
def formatDate (dateString : Option String) : String :=
  match dateString with
  | none => "N/A"
  | some s =>
    if s = "" then "N/A"
    else
      match parseISODate s with
      | some d => renderLocaleDate d
      | none => "Invalid Date"

/-! ### FHIR data model (the fields this application reads and writes) -/

/-- A coding entry; an absent `display` is modelled as the empty string,
which JavaScript `||` chains treat identically to `undefined`. -/
structure Coding where
  system : String
  code : String
  display : String
deriving DecidableEq

/-- A codeable concept: a list of codings and an optional free-text label. -/
structure CodeableConcept where
  coding : List Coding
  text : Option String
deriving DecidableEq

/-- A quantity; `value` is modelled as a rational (see file header). -/
structure Quantity where
  value : ℚ
  unit : Option String
  system : Option String
  code : Option String
deriving DecidableEq

/-- A literal reference to another resource. -/
structure Reference where
  reference : String
  display : Option String
deriving DecidableEq

/-- A FHIR HumanName; an absent `given` array is modelled as `[]`. -/
structure HumanName where
  given : List String
  family : Option String
deriving DecidableEq

/-- The patient fields this application consumes when building resources. -/
structure Patient where
  id : String
  name : List HumanName
deriving DecidableEq

/-- One component of a multi-component Observation (blood pressure etc.). -/
structure ObsComponent where
  code : Option CodeableConcept
  valueQuantity : Option Quantity
  valueString : Option String
  valueCodeableConcept : Option CodeableConcept
deriving DecidableEq

/-- The Observation fields this application reads and writes; an absent
`component` array is modelled as `[]`. -/
structure Observation where
  resourceType : String
  status : String
  category : List CodeableConcept
  code : Option CodeableConcept
  subject : Option Reference
  effectiveDateTime : Option String
  valueQuantity : Option Quantity
  valueString : Option String
  valueCodeableConcept : Option CodeableConcept
  component : List ObsComponent
  performer : List Reference
deriving DecidableEq

/-- The narrative of a Composition section. -/
structure Narrative where
  status : String
  div : String
deriving DecidableEq

/-- One section of a Composition. -/
structure CompSection where
  title : String
  code : CodeableConcept
  text : Narrative
deriving DecidableEq

/-- The Composition fields this application writes.  The JSON field
`section` is called `sections` here because `section` is a Lean keyword. -/
structure Composition where
  resourceType : String
  status : String
  type : CodeableConcept
  category : List CodeableConcept
  subject : Reference
  date : String
  author : List Reference
  title : String
  sections : List CompSection
deriving DecidableEq

/-- The `timing.repeat` fields read by the medication formatter. -/
structure RepeatSpec where
  frequency : Option ℚ
  period : Option ℚ
  periodUnit : Option String
deriving DecidableEq

/-- The `timing` element of a dosage instruction.  The JSON field `repeat`
is called `rep` here because `repeat` is a Lean keyword. -/
structure Timing where
  rep : Option RepeatSpec
deriving DecidableEq

/-- One dosage instruction of a MedicationRequest. -/
structure DosageInstruction where
  text : Option String
  timing : Option Timing
deriving DecidableEq

/-- The MedicationRequest fields read by the medication formatter; an absent
`dosageInstruction` array is modelled as `[]`. -/
structure MedicationRequest where
  medicationCodeableConcept : Option CodeableConcept
  status : Option String
  intent : Option String
  dosageInstruction : List DosageInstruction
deriving DecidableEq

/-! ### Fixed configuration -/

/-- The fixed organization id stamped on every created resource. -/
def ORGANIZATION_ID : String := "53655767"

/-- The subject display used by both forms:
the first name entry rendered as given names joined by spaces, a space and
the family name, trimmed; "Unknown" when the name array is empty. -/
def patientDisplay (p : Patient) : String :=
  match p.name with
  | [] => "Unknown"
  | n :: _ =>
    trimStr (jsOrStr (some (String.intercalate " " n.given)) "" ++ " " ++
      jsOrStr n.family "")

/-! ### Observation builder (LabValueForm) -/

/-- `createObservation` of LabValueForm: a laboratory Observation with a
fixed status, category, LOINC coding, subject, performer and quantity.
The source applies `parseFloat` to the already-parsed numeric argument,
which is the identity on numbers; the model takes the number directly. -/
def createObservation (patient : Patient) (effDate : String)
    (code display : String) (value : ℚ) (unit unitSystem : String) :
    Observation where
  resourceType := "Observation"
  status := "final"
  category := [{ coding := [{ system := "http://terminology.hl7.org/CodeSystem/observation-category",
                              code := "laboratory", display := "Laboratory" }],
                 text := some "Laboratory" }]
  code := some { coding := [{ system := "http://loinc.org", code := code, display := display }],
                 text := some display }
  subject := some { reference := "Patient/" ++ patient.id,
                    display := some (patientDisplay patient) }
  effectiveDateTime := some effDate
  valueQuantity := some { value := value, unit := some unit,
                          system := some unitSystem, code := some unit }
  valueString := none
  valueCodeableConcept := none
  component := []
  performer := [{ reference := "Organization/" ++ ORGANIZATION_ID,
                  display := some "Demo General Hospital" }]

/-- The lab-value form state: GFR, hemoglobin and observation date. -/
structure LabForm where
  gfr : String
  hemoglobin : String
  effectiveDateTime : String
deriving DecidableEq

/-- The observation-collection phase of `LabValueForm.handleSubmit`: for each
provided field, parse it, reject a NaN or negative value, and otherwise push
the corresponding `createObservation` result. -/
def labCollect (patient : Patient) (f : LabForm) :
    Except String (List Observation) :=
  let gfrStep : Except String (List Observation) :=
    if jsProvided f.gfr then
      match parseFloat f.gfr with
      | none => Except.error "GFR must be a valid positive number"
      | some v =>
        if v < 0 then Except.error "GFR must be a valid positive number"
        else Except.ok [createObservation patient f.effectiveDateTime "33914-3"
          "Glomerular filtration rate/1.73 sq M.predicted" v "mL/min/1.73m2"
          "http://unitsofmeasure.org"]
    else Except.ok []
  match gfrStep with
  | Except.error e => Except.error e
  | Except.ok obs1 =>
    let hgbStep : Except String (List Observation) :=
      if jsProvided f.hemoglobin then
        match parseFloat f.hemoglobin with
        | none => Except.error "Hemoglobin must be a valid positive number"
        | some v =>
          if v < 0 then Except.error "Hemoglobin must be a valid positive number"
          else Except.ok [createObservation patient f.effectiveDateTime "718-7"
            "Hemoglobin [Mass/volume] in Blood" v "g/dL"
            "http://unitsofmeasure.org"]
      else Except.ok []
    match hgbStep with
    | Except.error e => Except.error e
    | Except.ok obs2 => Except.ok (obs1 ++ obs2)

/-- The full validation phase of `LabValueForm.handleSubmit`: the collection
phase followed by the at-least-one-value check.  Everything past this point
is the network submission, so an error here never reaches the network. -/
def labBuild (patient : Patient) (f : LabForm) :
    Except String (List Observation) :=
  match labCollect patient f with
  | Except.error e => Except.error e
  | Except.ok observations =>
    if observations.length = 0 then
      Except.error "Please enter at least one lab value"
    else Except.ok observations

/-- The Observation bodies actually POSTed by `LabValueForm.handleSubmit`:
none when validation fails, the built list otherwise. -/
def labRequests (patient : Patient) (f : LabForm) : List Observation :=
  match labBuild patient f with
  | Except.error _ => []
  | Except.ok observations => observations

/-! ### Composition builder (ConsultationForm) -/

/-- The consultation form state: a date and six free-text section bodies. -/
structure ConsultForm where
  date : String
  chiefComplaint : String
  historyOfPresentIllness : String
  physicalExamination : String
  assessment : String
  plan : String
  notes : String
deriving DecidableEq

/-- The XHTML wrapper used for every section body:
`<div xmlns="http://www.w3.org/1999/xhtml">...</div>`. -/
def xhtmlDiv (s : String) : String :=
  "<div xmlns=\"http://www.w3.org/1999/xhtml\">" ++ s ++ "</div>"

/-- One Composition section with a single LOINC coding and a generated
XHTML narrative. -/
def loincSection (title code display body : String) : CompSection where
  title := title
  code := { coding := [{ system := "http://loinc.org", code := code, display := display }],
            text := none }
  text := { status := "generated", div := xhtmlDiv body }

/-- `createComposition` of ConsultationForm: one section per truthy
(non-empty) field, then the fixed envelope. -/
def createComposition (patient : Patient) (f : ConsultForm) : Composition :=
  let sections :=
    (if f.chiefComplaint ≠ "" then
      [loincSection "Chief Complaint" "10154-3" "Chief complaint" f.chiefComplaint]
     else []) ++
    (if f.historyOfPresentIllness ≠ "" then
      [loincSection "History of Present Illness" "10164-2" "History of present illness"
        f.historyOfPresentIllness]
     else []) ++
    (if f.physicalExamination ≠ "" then
      [loincSection "Physical Examination" "29545-1" "Physical examination"
        f.physicalExamination]
     else []) ++
    (if f.assessment ≠ "" then
      [loincSection "Assessment" "51848-0" "Assessment" f.assessment]
     else []) ++
    (if f.plan ≠ "" then
      [loincSection "Plan" "18776-5" "Plan" f.plan]
     else []) ++
    (if f.notes ≠ "" then
      [loincSection "Additional Notes" "11506-3" "Progress note" f.notes]
     else [])
  { resourceType := "Composition"
    status := "final"
    type := { coding := [{ system := "http://loinc.org", code := "11506-3",
                           display := "Progress note" }],
              text := some "Cardiology Consultation Report" }
    category := [{ coding := [{ system := "http://snomed.info/sct", code := "308335008",
                                display := "Patient consultation" }],
                   text := some "Consultation" }]
    subject := { reference := "Patient/" ++ patient.id,
                 display := some (patientDisplay patient) }
    date := f.date
    author := [{ reference := "Organization/" ++ ORGANIZATION_ID,
                 display := some "Demo General Hospital - Cardiology Department" }]
    title := "Cardiology Consultation Report"
    sections := sections }

/-- The validation phase of `ConsultationForm.handleSubmit`: reject when
chief complaint, assessment and plan are all empty, build the Composition,
and reject when its section list is empty.  An error here never reaches
the network. -/
def consultSubmitCheck (patient : Patient) (f : ConsultForm) :
    Except String Composition :=
  if f.chiefComplaint = "" ∧ f.assessment = "" ∧ f.plan = "" then
    Except.error "Please provide at least Chief Complaint, Assessment, or Plan"
  else
    let composition := createComposition patient f
    if composition.sections.length = 0 then
      Except.error "Please provide at least one section of the consultation report"
    else Except.ok composition

/-! ### Observation formatter (PatientObservations.getObservationDisplay) -/

/-- The recurring resolution idiom
`x?.coding?.[0]?.display || x?.text || dflt` (an empty `display` falls
through exactly like an absent one). -/
def resolveCC (cc : Option CodeableConcept) (dflt : String) : String :=
  jsOrStr (cc.bind fun c => c.coding.head?.map Coding.display)
    (jsOrStr (cc.bind CodeableConcept.text) dflt)

/-- The per-component branch of `getObservationDisplay`: resolve the
component code and render its value by the `valueQuantity` /
`valueString` / `valueCodeableConcept` chain. -/
def componentDisplay (comp : ObsComponent) : String × String :=
  let compCode := resolveCC comp.code "Unknown"
  let compValue :=
    match comp.valueQuantity with
    | some q => renderNum q.value ++ " " ++ jsOrStr q.unit ""
    | none =>
      if strTruthy comp.valueString then (comp.valueString.getD "")
      else
        match comp.valueCodeableConcept with
        | some cc => resolveCC (some cc) "N/A"
        | none => "N/A"
  (compCode, compValue)

/-- The display record produced by `getObservationDisplay`. -/
structure ObsDisplay where
  code : String
  value : String
  components : Option (List (String × String))
deriving DecidableEq

/-- `getObservationDisplay` of PatientObservations: resolve the parent code;
for a component-bearing Observation map every component, render exactly two
components of a code containing "blood pressure" (case-insensitively) as
`"systolic/diastolic"` and any other component list as comma-joined
`"code: value"` pairs; otherwise fall through the
`valueQuantity`/`valueString`/`valueCodeableConcept` chain to `"N/A"`. -/
def getObservationDisplay (obs : Observation) : ObsDisplay :=
  let code := resolveCC obs.code "Unknown"
  if obs.component.length > 0 then
    let components := obs.component.map componentDisplay
    let value :=
      if components.length = 2 ∧ hasSub (lowerStr code) "blood pressure" then
        (components.headD ("", "")).2 ++ "/" ++ ((components.drop 1).headD ("", "")).2
      else
        String.intercalate ", " (components.map fun c => c.1 ++ ": " ++ c.2)
    { code := code, value := value, components := some components }
  else
    let value :=
      match obs.valueQuantity with
      | some q => renderNum q.value ++ " " ++ jsOrStr q.unit ""
      | none =>
        if strTruthy obs.valueString then (obs.valueString.getD "")
        else
          match obs.valueCodeableConcept with
          | some cc => resolveCC (some cc) "N/A"
          | none => "N/A"
    { code := code, value := value, components := none }

/-! ### Medication formatter (PatientMedications.getMedicationDisplay) -/

/-- The display record produced by `getMedicationDisplay`. -/
structure MedDisplay where
  name : String
  status : String
  intent : String
  dosage : String
deriving DecidableEq

/-- `getMedicationDisplay` of PatientMedications.  Because `||` binds
tighter than `?:` in JavaScript, the dosage conditional is
`(dosageInstruction?.[0]?.text || dosageInstruction?.[0]?.timing?.repeat)
? freqString : "As directed"`, and the frequency-string branch reads
`dosageInstruction[0].timing.repeat.frequency` without optional chaining,
which throws a TypeError (modelled as `none`) when `timing.repeat` is
absent while `text` is truthy. -/
def getMedicationDisplay (m : MedicationRequest) : Option MedDisplay :=
  let name := resolveCC m.medicationCodeableConcept "Unknown medication"
  let status := jsOrStr m.status "unknown"
  let intent := jsOrStr m.intent "unknown"
  let text0 := m.dosageInstruction.head?.bind DosageInstruction.text
  let repeat0 := (m.dosageInstruction.head?.bind DosageInstruction.timing).bind Timing.rep
  if strTruthy text0 || repeat0.isSome then
    match (m.dosageInstruction.head?.bind DosageInstruction.timing).bind Timing.rep with
    | none => none
    | some r =>
      some { name := name, status := status, intent := intent,
             dosage := renderNum (jsNumOr r.frequency 1) ++ "x per " ++
               jsOrStr r.periodUnit "day" }
  else
    some { name := name, status := status, intent := intent, dosage := "As directed" }

/-! ### Network submission and error surfacing -/

/-- The response data consulted by the submission handlers: the `ok` flag,
HTTP status and the best-effort `issue[0].diagnostics` of the parsed body
(`none` when the body is unparsable or carries no diagnostics). -/
structure FhirResponse where
  ok : Bool
  status : Nat
  diagnostics : Option String
deriving DecidableEq

/-- The error message built by `ConsultationForm.handleSubmit` for a
non-2xx response (`none` for a 2xx response). -/
def consultationError (r : FhirResponse) : Option String :=
  if r.ok then none
  else some ("Failed to create consultation report: " ++ toString r.status ++
    " " ++ jsOrStr r.diagnostics "")

/-- JavaScript `Array.join(sep)`. -/
def joinSep (sep : String) : List String → String
  | [] => ""
  | [e] => e
  | e :: rest => e ++ sep ++ joinSep sep rest

/-- The interpolation `${observations[i].code.text}` of the lab error
message (a missing field renders as "undefined" in JavaScript). -/
def obsCodeText (o : Observation) : String :=
  match o.code with
  | some c => jsOrStr c.text "undefined"
  | none => "undefined"

/-- The error string built by `LabValueForm.handleSubmit` for one failed
POST: the observation's code text, the HTTP status and the optional
diagnostics. -/
def labErrorMsg (o : Observation) (r : FhirResponse) : String :=
  "Failed to create " ++ obsCodeText o ++ ": " ++ toString r.status ++ " " ++
    jsOrStr r.diagnostics ""

/-- The per-observation error strings collected by
`LabValueForm.handleSubmit` after the parallel POSTs: one entry per
non-ok response. -/
def labErrors (observations : List Observation) (results : List FhirResponse) :
    List String :=
  (List.zip observations results).filterMap fun p =>
    if p.2.ok then none else some (labErrorMsg p.1 p.2)

/-- The aggregate submission outcome of `LabValueForm.handleSubmit`:
`some message` exactly when at least one POST failed, joining the
individual errors with "; ". -/
def labSubmitOutcome (observations : List Observation)
    (results : List FhirResponse) : Option String :=
  let errors := labErrors observations results
  if errors.length > 0 then some (joinSep "; " errors) else none

/-! ### Seed script (insert-john-doe-history.js) -/

/-- One blood-pressure component of the seed script's observations. -/
def bpComponent (code display : String) (v : ℚ) : ObsComponent where
  code := some { coding := [{ system := "http://loinc.org", code := code,
                              display := display }],
                 text := none }
  valueQuantity := some { value := v, unit := some "mmHg",
                          system := some "http://unitsofmeasure.org",
                          code := some "mm[Hg]" }
  valueString := none
  valueCodeableConcept := none

/-- One blood-pressure Observation created by step 6 of the seed script:
category `vital-signs`, LOINC panel code 85354-9, systolic and diastolic
components, subject and performer references. -/
def bpObservation (patientId effDate : String) (systolic diastolic : ℚ) :
    Observation where
  resourceType := "Observation"
  status := "final"
  category := [{ coding := [{ system := "http://terminology.hl7.org/CodeSystem/observation-category",
                              code := "vital-signs", display := "Vital Signs" }],
                 text := none }]
  code := some { coding := [{ system := "http://loinc.org", code := "85354-9",
                              display := "Blood pressure panel with all children optional" }],
                 text := none }
  subject := some { reference := "Patient/" ++ patientId, display := some "John Doe" }
  effectiveDateTime := some effDate
  valueQuantity := none
  valueString := none
  valueCodeableConcept := none
  component := [bpComponent "8480-6" "Systolic blood pressure" systolic,
                bpComponent "8462-4" "Diastolic blood pressure" diastolic]
  performer := [{ reference := "Organization/" ++ ORGANIZATION_ID,
                  display := some "Demo General Hospital" }]

/-- One consultation entry of the seed script's step 7. -/
structure ConsultEntry where
  chiefComplaint : String
  history : String
  physicalExam : String
  assessment : String
  plan : String
deriving DecidableEq

/-- One Composition created by step 7 of the seed script: always the same
five sections (chief complaint, history, physical exam, assessment, plan)
with their fixed LOINC codes, plus subject and author references. -/
def seedComposition (patientId date : String) (c : ConsultEntry) : Composition where
  resourceType := "Composition"
  status := "final"
  type := { coding := [{ system := "http://loinc.org", code := "11506-3",
                         display := "Progress note" }],
            text := some "Cardiology Consultation Report" }
  category := [{ coding := [{ system := "http://snomed.info/sct", code := "308335008",
                              display := "Patient consultation" }],
                 text := some "Consultation" }]
  subject := { reference := "Patient/" ++ patientId, display := some "John Doe" }
  date := date
  author := [{ reference := "Organization/" ++ ORGANIZATION_ID,
               display := some "Demo General Hospital - Cardiology Department" }]
  title := "Cardiology Consultation Report"
  sections := [loincSection "Chief Complaint" "10154-3" "Chief complaint" c.chiefComplaint,
               loincSection "History of Present Illness" "10164-2" "History of present illness" c.history,
               loincSection "Physical Examination" "29545-1" "Physical examination" c.physicalExam,
               loincSection "Assessment" "51848-0" "Assessment" c.assessment,
               loincSection "Plan" "18776-5" "Plan" c.plan]

/-- One DELETE request issued by the cleanup phase. -/
structure DeleteReq where
  rtype : String
  rid : String
  cascade : Bool
deriving DecidableEq

/-- The dependent resource types deleted by `deleteAllPatients`, in source
order: dependencies first, then the resources they reference. -/
def cleanupResourceTypes : List String :=
  ["DiagnosticReport", "ServiceRequest", "MedicationRequest", "Procedure",
   "Composition", "Observation", "Condition"]

/-- The includes test selecting cascade for Condition and Procedure. -/
def useCascade (rt : String) : Bool :=
  rt == "Condition" || rt == "Procedure"

/-- The ordered DELETE requests issued for one patient by
`deleteAllPatients`: for each dependent resource type in order, one request
per fetched resource id (cascade only per `useCascade`), and finally the
Patient itself with cascade enabled. -/
def patientDeletionPlan (pid : String) (fetched : String → List String) :
    List DeleteReq :=
  (cleanupResourceTypes.flatMap fun rt =>
    (fetched rt).map fun rid => { rtype := rt, rid := rid, cascade := useCascade rt }) ++
  [{ rtype := "Patient", rid := pid, cascade := true }]

/-! ### Concrete fixtures used by witnesses and counterexamples -/

/-- The seed script's demo patient, as the forms receive it. -/
def pJohn : Patient where
  id := "p1"
  name := [{ given := ["John"], family := some "Doe" }]

/-- Lab form with only GFR = "90.0" provided. -/
def fGfr90 : LabForm where
  gfr := "90.0"
  hemoglobin := ""
  effectiveDateTime := "2024-01-15"

/-- Lab form with only hemoglobin = "14.5" provided. -/
def fHgb145 : LabForm where
  gfr := ""
  hemoglobin := "14.5"
  effectiveDateTime := "2024-01-15"

/-- Lab form with a negative GFR. -/
def fGfrNeg : LabForm where
  gfr := "-1"
  hemoglobin := ""
  effectiveDateTime := "2024-01-15"

/-- Lab form with both values blank. -/
def fBlank : LabForm where
  gfr := ""
  hemoglobin := ""
  effectiveDateTime := "2024-01-15"

/-- Consultation form with only the assessment filled in. -/
def fAssessOnly : ConsultForm where
  date := "2024-01-15"
  chiefComplaint := ""
  historyOfPresentIllness := ""
  physicalExamination := ""
  assessment := "stable"
  plan := ""
  notes := ""

/-- Consultation form with all six section bodies blank. -/
def fAllBlank : ConsultForm where
  date := "2024-01-15"
  chiefComplaint := ""
  historyOfPresentIllness := ""
  physicalExamination := ""
  assessment := ""
  plan := ""
  notes := ""

/-- A repeat specification of two doses per day unit "d". -/
def repTwice : RepeatSpec where
  frequency := some 2
  period := some 1
  periodUnit := some "d"

/-- Timing wrapping `repTwice`. -/
def timingTwice : Timing where
  rep := some repTwice

/-- Dosage instruction with no text but a present `timing.repeat`. -/
def diNoText : DosageInstruction where
  text := none
  timing := some timingTwice

/-- A MedicationRequest whose only dosage instruction has no `text` but a
present `timing.repeat` — the case claim C10 is about. -/
def medNoText : MedicationRequest where
  medicationCodeableConcept := some { coding := [], text := some "Aspirin" }
  status := some "active"
  intent := some "order"
  dosageInstruction := [diNoText]

/-- A non-2xx response with HTTP 422 and a diagnostics string. -/
def resp422 : FhirResponse where
  ok := false
  status := 422
  diagnostics := some "invalid code"

/-- A fetched-resources map with a single Condition, for the deletion plan. -/
def wFetched : String → List String := fun rt =>
  if rt = "Condition" then ["c1"] else []

/-! ### Spec-side refinement definitions -/

/-- Is the string non-numeric or negative under `parseFloat`
(`isNaN(v) || v < 0` in the source). -/
def badNumeric (s : String) : Bool :=
  match parseFloat s with
  | none => true
  | some v => decide (v < 0)

/-- Refinement definition following the specification's words for claim C3:
the lab submission must fail exactly when some provided value is
non-numeric or negative, or both fields are blank. -/
def specLabInvalid (f : LabForm) : Bool :=
  (jsProvided f.gfr && badNumeric f.gfr) ||
  (jsProvided f.hemoglobin && badNumeric f.hemoglobin) ||
  (!jsProvided f.gfr && !jsProvided f.hemoglobin)

/-- Does the lab validation phase fail. -/
def labFails (patient : Patient) (f : LabForm) : Bool :=
  match labBuild patient f with
  | Except.error _ => true
  | Except.ok _ => false

example : formatDate none = "N/A" := by decide
example : formatDate (some "2020-03-05") = "Mar 5, 2020" := by decide
example : formatDate (some "not-a-date") = "Invalid Date" := by decide
example : parseFloat "90.0" = some 90 := by decide
example : parseFloat "14.5" = some (mkRat 29 2) := by decide
example : parseFloat "-1" = some (-1) := by decide
example : parseFloat "abc" = none := by decide
example : renderNum 90 = "90" := by decide
example : renderNum (mkRat 29 2) = "14.5" := by decide
example : renderNum (mkRat 1 100) = "0.01" := by decide
example : jsProvided "  " = false := by decide
example : jsProvided "90.0" = true := by decide
example : hasSub (lowerStr "Blood pressure panel") "blood pressure" = true := by decide
example : patientDisplay pJohn = "John Doe" := by decide
example :
    labCollect pJohn fGfr90 =
      Except.ok [createObservation pJohn "2024-01-15" "33914-3"
        "Glomerular filtration rate/1.73 sq M.predicted" 90 "mL/min/1.73m2"
        "http://unitsofmeasure.org"] := by decide
example :
    (labRequests pJohn fGfr90).map (fun o => (getObservationDisplay o).value) =
      ["90 mL/min/1.73m2"] := by decide
example :
    (labRequests pJohn fHgb145).map (fun o => (getObservationDisplay o).value) =
      ["14.5 g/dL"] := by decide
example : labBuild pJohn fGfrNeg = Except.error "GFR must be a valid positive number" := by
  decide
example : labBuild pJohn fBlank = Except.error "Please enter at least one lab value" := by
  decide
example :
    (getObservationDisplay (bpObservation "p1" "2019-01-01" 200 110)).value =
      "200 mmHg/110 mmHg" := by decide
example :
    (createComposition pJohn fAssessOnly).sections.map
      (fun s => s.code.coding.map Coding.code) = [["51848-0"]] := by decide
example :
    consultSubmitCheck pJohn fAllBlank =
      Except.error "Please provide at least Chief Complaint, Assessment, or Plan" := by decide
example :
    (getMedicationDisplay medNoText).map MedDisplay.dosage = some "2x per d" := by decide
example :
    consultationError resp422 =
      some "Failed to create consultation report: 422 invalid code" := by decide
example :
    patientDeletionPlan "p1" wFetched =
      [{ rtype := "Condition", rid := "c1", cascade := true },
       { rtype := "Patient", rid := "p1", cascade := true }] := by decide

/-! ### Helper lemmas about substring search -/

theorem matchFront_refl (p t : List Char) : matchFront p (p ++ t) = true := by
  induction p with
  | nil => rfl
  | cons a as ih => simp [matchFront, ih]

theorem matchFront_extend (p : List Char) :
    ∀ s t, matchFront p s = true → matchFront p (s ++ t) = true := by
  induction p with
  | nil => intro s t _; rfl
  | cons a as ih =>
    intro s t h
    cases s with
    | nil => exact absurd h (by simp [matchFront])
    | cons b bs =>
      simp only [matchFront, Bool.and_eq_true] at h
      simp only [List.cons_append, matchFront, Bool.and_eq_true]
      exact ⟨h.1, ih bs t h.2⟩

theorem findSub_of_matchFront (p l : List Char) (h : matchFront p l = true) :
    findSub p l = true := by
  cases l with
  | nil => simpa [findSub] using h
  | cons b bs => simp [findSub, h]

theorem findSub_nil_pat (l : List Char) : findSub [] l = true := by
  cases l with
  | nil => rfl
  | cons b bs => simp [findSub, matchFront]

theorem findSub_append_right (p : List Char) :
    ∀ s t, findSub p s = true → findSub p (s ++ t) = true := by
  intro s
  induction s with
  | nil =>
    intro t h
    have hp : p = [] := by
      cases p with
      | nil => rfl
      | cons a as => simp [findSub, matchFront] at h
    subst hp
    exact findSub_nil_pat t
  | cons b bs ih =>
    intro t h
    simp only [findSub, Bool.or_eq_true] at h
    rcases h with h | h
    · exact findSub_of_matchFront _ _ (by simpa using matchFront_extend p (b :: bs) t h)
    · simp only [List.cons_append, findSub, Bool.or_eq_true]
      exact Or.inr (ih t h)

theorem findSub_append_left (p : List Char) :
    ∀ s t, findSub p t = true → findSub p (s ++ t) = true := by
  intro s
  induction s with
  | nil => intro t h; simpa using h
  | cons b bs ih =>
    intro t h
    simp only [List.cons_append, findSub, Bool.or_eq_true]
    exact Or.inr (ih t h)

theorem findSub_middle (p a b : List Char) : findSub p (a ++ (p ++ b)) = true :=
  findSub_append_left p a (p ++ b)
    (findSub_of_matchFront p (p ++ b) (matchFront_refl p b))

theorem hasSub_sandwich (a p b : String) : hasSub (a ++ (p ++ b)) p = true := by
  unfold hasSub
  rw [String.data_append, String.data_append]
  exact findSub_middle p.data a.data b.data

theorem hasSub_self (s : String) : hasSub s s = true := by
  unfold hasSub
  exact findSub_of_matchFront _ _ (by simpa using matchFront_refl s.data [])

theorem hasSub_append_right (s t p : String) (h : hasSub s p = true) :
    hasSub (s ++ t) p = true := by
  unfold hasSub at h ⊢
  rw [String.data_append]
  exact findSub_append_right p.data s.data t.data h

theorem hasSub_append_left (s t p : String) (h : hasSub t p = true) :
    hasSub (s ++ t) p = true := by
  unfold hasSub at h ⊢
  rw [String.data_append]
  exact findSub_append_left p.data s.data t.data h

theorem hasSub_joinSep (sep p : String) :
    ∀ (l : List String) (e : String), e ∈ l → hasSub e p = true →
      hasSub (joinSep sep l) p = true := by
  intro l
  induction l with
  | nil => intro e he; exact absurd he (List.not_mem_nil e)
  | cons a tail ih =>
    intro e he hp
    cases tail with
    | nil =>
      rcases List.mem_singleton.mp he with rfl
      simpa [joinSep] using hp
    | cons b bs =>
      rcases List.mem_cons.mp he with rfl | hmem
      · show hasSub (e ++ sep ++ joinSep sep (b :: bs)) p = true
        exact hasSub_append_right _ _ _ (hasSub_append_right _ _ _ hp)
      · show hasSub (a ++ sep ++ joinSep sep (b :: bs)) p = true
        rw [String.append_assoc]
        exact hasSub_append_left _ _ _ (hasSub_append_left _ _ _ (ih e hmem hp))

/-! ### Claim theorems -/

/-- C1: the claim states that the date formatter returns "N/A" for absent
input, the en-US locale rendering for valid ISO dates, and the original
string unchanged for malformed input.  The first two branches hold, but the
third does not: `new Date(s)` never throws in JavaScript, so the source's
`catch { return dateString }` is unreachable and a malformed string is
rendered as "Invalid Date" instead of being passed through.  This theorem
evaluates the embedded formatter on all three branches, exhibiting the
divergence at the failing input "not-a-date". -/
theorem c1_formatDate_behavior :
    formatDate none = "N/A" ∧
    formatDate (some "2020-03-05") = "Mar 5, 2020" ∧
    formatDate (some "not-a-date") = "Invalid Date" ∧
    formatDate (some "not-a-date") ≠ "not-a-date" := by decide

/-- C2: for every lab-value input whose provided fields are non-blank,
non-negative numeric strings, the observation-collection phase succeeds with
exactly one Observation per provided field, each with status "final", a
single "laboratory" category, the unit system `http://unitsofmeasure.org`,
and — per field — the fixed LOINC code, unit, and the parsed value. -/
theorem c2_observation_builder (p : Patient) (f : LabForm)
    (hg : jsProvided f.gfr = true → ∃ v : ℚ, parseFloat f.gfr = some v ∧ 0 ≤ v)
    (hh : jsProvided f.hemoglobin = true → ∃ v : ℚ, parseFloat f.hemoglobin = some v ∧ 0 ≤ v) :
    ∃ l : List Observation, labCollect p f = Except.ok l ∧
      l.length = (if jsProvided f.gfr = true then 1 else 0) +
                 (if jsProvided f.hemoglobin = true then 1 else 0) ∧
      (∀ o ∈ l, o.status = "final" ∧
        o.category.map (fun c => c.coding.map Coding.code) = [["laboratory"]] ∧
        o.valueQuantity.map Quantity.system = some (some "http://unitsofmeasure.org")) ∧
      (∀ v : ℚ, jsProvided f.gfr = true → parseFloat f.gfr = some v →
        ∃ o ∈ l, o.code.map (fun c => c.coding.map Coding.code) = some ["33914-3"] ∧
          o.valueQuantity.map Quantity.value = some v ∧
          o.valueQuantity.map Quantity.unit = some (some "mL/min/1.73m2")) ∧
      (∀ v : ℚ, jsProvided f.hemoglobin = true → parseFloat f.hemoglobin = some v →
        ∃ o ∈ l, o.code.map (fun c => c.coding.map Coding.code) = some ["718-7"] ∧
          o.valueQuantity.map Quantity.value = some v ∧
          o.valueQuantity.map Quantity.unit = some (some "g/dL")) := by
  cases hgp : jsProvided f.gfr with
  | false =>
    cases hhp : jsProvided f.hemoglobin with
    | false =>
      refine ⟨[], by simp [labCollect, hgp, hhp], by simp [hgp, hhp], by simp, ?_, ?_⟩
      · intro v hv; simp at hv
      · intro v hv; simp at hv
    | true =>
      obtain ⟨w, hw, hwnn⟩ := hh hhp
      refine ⟨[createObservation p f.effectiveDateTime "718-7"
        "Hemoglobin [Mass/volume] in Blood" w "g/dL" "http://unitsofmeasure.org"],
        ?_, by simp [hgp, hhp], ?_, ?_, ?_⟩
      · simp [labCollect, hgp, hhp, hw, not_lt.mpr hwnn]
      · intro o ho
        rcases List.mem_singleton.mp ho with rfl
        refine ⟨rfl, rfl, rfl⟩
      · intro v hv; simp at hv
      · intro v _ hpv
        rw [hw] at hpv
        obtain rfl : w = v := Option.some.inj hpv
        exact ⟨_, List.mem_singleton.mpr rfl, rfl, rfl, rfl⟩
  | true =>
    obtain ⟨u, hu, hunn⟩ := hg hgp
    cases hhp : jsProvided f.hemoglobin with
    | false =>
      refine ⟨[createObservation p f.effectiveDateTime "33914-3"
        "Glomerular filtration rate/1.73 sq M.predicted" u "mL/min/1.73m2"
        "http://unitsofmeasure.org"],
        ?_, by simp [hgp, hhp], ?_, ?_, ?_⟩
      · simp [labCollect, hgp, hhp, hu, not_lt.mpr hunn]
      · intro o ho
        rcases List.mem_singleton.mp ho with rfl
        refine ⟨rfl, rfl, rfl⟩
      · intro v _ hpv
        rw [hu] at hpv
        obtain rfl : u = v := Option.some.inj hpv
        exact ⟨_, List.mem_singleton.mpr rfl, rfl, rfl, rfl⟩
      · intro v hv; simp at hv
    | true =>
      obtain ⟨w, hw, hwnn⟩ := hh hhp
      refine ⟨[createObservation p f.effectiveDateTime "33914-3"
        "Glomerular filtration rate/1.73 sq M.predicted" u "mL/min/1.73m2"
        "http://unitsofmeasure.org",
        createObservation p f.effectiveDateTime "718-7"
        "Hemoglobin [Mass/volume] in Blood" w "g/dL" "http://unitsofmeasure.org"],
        ?_, by simp [hgp, hhp], ?_, ?_, ?_⟩
      · simp [labCollect, hgp, hhp, hu, hw, not_lt.mpr hunn, not_lt.mpr hwnn]
      · intro o ho
        rcases List.mem_cons.mp ho with rfl | ho
        · refine ⟨rfl, rfl, rfl⟩
        · rcases List.mem_singleton.mp ho with rfl
          refine ⟨rfl, rfl, rfl⟩
      · intro v _ hpv
        rw [hu] at hpv
        obtain rfl : u = v := Option.some.inj hpv
        exact ⟨_, List.mem_cons_self _ _, rfl, rfl, rfl⟩
      · intro v _ hpv
        rw [hw] at hpv
        obtain rfl : w = v := Option.some.inj hpv
        exact ⟨_, List.mem_cons.mpr (Or.inr (List.mem_singleton.mpr rfl)), rfl, rfl, rfl⟩

/-- Witness for C2 at the claim's concrete input `gfr = "90.0"`,
`hemoglobin = ""`: the collection succeeds with exactly one resource. -/
theorem c2_observation_builder_witness :
    ∃ l : List Observation, labCollect pJohn fGfr90 = Except.ok l ∧
      l.length = (if jsProvided fGfr90.gfr = true then 1 else 0) +
                 (if jsProvided fGfr90.hemoglobin = true then 1 else 0) ∧
      (∀ o ∈ l, o.status = "final" ∧
        o.category.map (fun c => c.coding.map Coding.code) = [["laboratory"]] ∧
        o.valueQuantity.map Quantity.system = some (some "http://unitsofmeasure.org")) ∧
      (∀ v : ℚ, jsProvided fGfr90.gfr = true → parseFloat fGfr90.gfr = some v →
        ∃ o ∈ l, o.code.map (fun c => c.coding.map Coding.code) = some ["33914-3"] ∧
          o.valueQuantity.map Quantity.value = some v ∧
          o.valueQuantity.map Quantity.unit = some (some "mL/min/1.73m2")) ∧
      (∀ v : ℚ, jsProvided fGfr90.hemoglobin = true → parseFloat fGfr90.hemoglobin = some v →
        ∃ o ∈ l, o.code.map (fun c => c.coding.map Coding.code) = some ["718-7"] ∧
          o.valueQuantity.map Quantity.value = some v ∧
          o.valueQuantity.map Quantity.unit = some (some "g/dL")) :=
  c2_observation_builder pJohn fGfr90
    (fun _ => ⟨90, by decide, by decide⟩)
    (fun h => absurd h (by decide))

/-- C3: the lab submission fails with a validation error exactly when some
provided value is non-numeric or negative, or both fields are blank
(`specLabInvalid`, the specification's condition), and on failure no
Observation body is POSTed. -/
theorem c3_lab_validation (p : Patient) (f : LabForm) :
    labFails p f = specLabInvalid f ∧
    (labFails p f = true → labRequests p f = []) := by
  have hmain : labFails p f = specLabInvalid f ∧
      (labFails p f = true → labRequests p f = []) := by
    cases hgp : jsProvided f.gfr with
    | false =>
      cases hhp : jsProvided f.hemoglobin with
      | false =>
        constructor
        · simp [labFails, labBuild, labCollect, specLabInvalid, hgp, hhp]
        · intro _; simp [labRequests, labBuild, labCollect, hgp, hhp]
      | true =>
        cases hph : parseFloat f.hemoglobin with
        | none =>
          constructor
          · simp [labFails, labBuild, labCollect, specLabInvalid, badNumeric, hgp, hhp, hph]
          · intro _; simp [labRequests, labBuild, labCollect, hgp, hhp, hph]
        | some w =>
          by_cases hw : w < 0
          · constructor
            · simp [labFails, labBuild, labCollect, specLabInvalid, badNumeric, hgp, hhp, hph, hw]
            · intro _; simp [labRequests, labBuild, labCollect, hgp, hhp, hph, hw]
          · constructor
            · simp [labFails, labBuild, labCollect, specLabInvalid, badNumeric, hgp, hhp, hph, hw]
            · intro hfail
              exact absurd hfail (by
                simp [labFails, labBuild, labCollect, hgp, hhp, hph, hw])
    | true =>
      cases hpg : parseFloat f.gfr with
      | none =>
        constructor
        · simp [labFails, labBuild, labCollect, specLabInvalid, badNumeric, hgp, hpg]
        · intro _; simp [labRequests, labBuild, labCollect, hgp, hpg]
      | some u =>
        by_cases hu : u < 0
        · constructor
          · simp [labFails, labBuild, labCollect, specLabInvalid, badNumeric, hgp, hpg, hu]
          · intro _; simp [labRequests, labBuild, labCollect, hgp, hpg, hu]
        · cases hhp : jsProvided f.hemoglobin with
          | false =>
            constructor
            · simp [labFails, labBuild, labCollect, specLabInvalid, badNumeric, hgp, hhp, hpg, hu]
            · intro hfail
              exact absurd hfail (by
                simp [labFails, labBuild, labCollect, hgp, hhp, hpg, hu])
          | true =>
            cases hph : parseFloat f.hemoglobin with
            | none =>
              constructor
              · simp [labFails, labBuild, labCollect, specLabInvalid, badNumeric, hgp, hhp, hpg, hph, hu]
              · intro _; simp [labRequests, labBuild, labCollect, hgp, hhp, hpg, hph, hu]
            | some w =>
              by_cases hw : w < 0
              · constructor
                · simp [labFails, labBuild, labCollect, specLabInvalid, badNumeric, hgp, hhp, hpg, hph, hu, hw]
                · intro _; simp [labRequests, labBuild, labCollect, hgp, hhp, hpg, hph, hu, hw]
              · constructor
                · simp [labFails, labBuild, labCollect, specLabInvalid, badNumeric, hgp, hhp, hpg, hph, hu, hw]
                · intro hfail
                  exact absurd hfail (by
                    simp [labFails, labBuild, labCollect, hgp, hhp, hpg, hph, hu, hw])
  exact hmain

/-- Witness for C3 at the claim's concrete input `gfr = "-1"`: validation
fails and nothing is POSTed. -/
theorem c3_lab_validation_witness :
    labFails pJohn fGfrNeg = true ∧ labRequests pJohn fGfrNeg = [] :=
  ⟨by decide, (c3_lab_validation pJohn fGfrNeg).2 (by decide)⟩

/-- C4: the Composition builder emits one section per non-blank (non-empty)
field, tagged with its fixed LOINC code and wrapping the raw text in an
XHTML div; the submission fails with a validation error exactly when chief
complaint, assessment and plan are all blank, or the section list is empty;
and the concrete input with only `assessment = "stable"` produces exactly
one section tagged LOINC 51848-0. -/
theorem c4_composition_builder (p : Patient) (f : ConsultForm) :
    ((createComposition p f).sections.map (fun s => s.code.coding.map Coding.code) =
      (if f.chiefComplaint ≠ "" then [["10154-3"]] else []) ++
      (if f.historyOfPresentIllness ≠ "" then [["10164-2"]] else []) ++
      (if f.physicalExamination ≠ "" then [["29545-1"]] else []) ++
      (if f.assessment ≠ "" then [["51848-0"]] else []) ++
      (if f.plan ≠ "" then [["18776-5"]] else []) ++
      (if f.notes ≠ "" then [["11506-3"]] else [])) ∧
    ((createComposition p f).sections.map (fun s => s.text.div) =
      (if f.chiefComplaint ≠ "" then [xhtmlDiv f.chiefComplaint] else []) ++
      (if f.historyOfPresentIllness ≠ "" then [xhtmlDiv f.historyOfPresentIllness] else []) ++
      (if f.physicalExamination ≠ "" then [xhtmlDiv f.physicalExamination] else []) ++
      (if f.assessment ≠ "" then [xhtmlDiv f.assessment] else []) ++
      (if f.plan ≠ "" then [xhtmlDiv f.plan] else []) ++
      (if f.notes ≠ "" then [xhtmlDiv f.notes] else [])) ∧
    ((∃ e, consultSubmitCheck p f = Except.error e) ↔
      ((f.chiefComplaint = "" ∧ f.assessment = "" ∧ f.plan = "") ∨
        (createComposition p f).sections = [])) ∧
    (createComposition pJohn fAssessOnly).sections.map
      (fun s => s.code.coding.map Coding.code) = [["51848-0"]] := by
  refine ⟨?_, ?_, ?_, by decide⟩
  · simp [createComposition, loincSection, apply_ite (List.map
      (fun s : CompSection => s.code.coding.map Coding.code))]
  · simp [createComposition, loincSection, apply_ite (List.map
      (fun s : CompSection => s.text.div))]
  · constructor
    · rintro ⟨e, he⟩
      by_cases h1 : f.chiefComplaint = "" ∧ f.assessment = "" ∧ f.plan = ""
      · exact Or.inl h1
      · rw [consultSubmitCheck, if_neg h1] at he
        by_cases h2 : (createComposition p f).sections.length = 0
        · exact Or.inr (List.length_eq_zero.mp h2)
        · rw [if_neg h2] at he
          cases he
    · intro h
      have hblank : f.chiefComplaint = "" ∧ f.assessment = "" ∧ f.plan = "" := by
        rcases h with h | h
        · exact h
        · refine ⟨?_, ?_, ?_⟩ <;> {
            by_contra hne
            apply List.ne_nil_of_length_pos ?_ h
            have : (createComposition p f).sections.map (fun s => s.text.div) ≠ [] := by
              simp [createComposition, loincSection, apply_ite (List.map
                (fun s : CompSection => s.text.div)), hne]
            have hlen := List.length_map (createComposition p f).sections
              (fun s => s.text.div)
            rcases Nat.eq_zero_or_pos (createComposition p f).sections.length with h0 | hpos
            · exact absurd (List.map_eq_nil_iff.mpr (List.length_eq_zero.mp h0)) this
            · exact hpos }
      refine ⟨"Please provide at least Chief Complaint, Assessment, or Plan", ?_⟩
      rw [consultSubmitCheck, if_pos hblank]

set_option maxRecDepth 8192 in
/-- C5: an Observation with exactly two components whose resolved code
contains "blood pressure" (case-insensitively) is displayed as
`"{component0 value}/{component1 value}"`, and every other
component-bearing Observation is displayed as its components joined as
`"code: value"` pairs separated by commas. -/
theorem c5_observation_display (obs : Observation) :
    (∀ c0 c1, obs.component = [c0, c1] →
      hasSub (lowerStr (resolveCC obs.code "Unknown")) "blood pressure" = true →
      (getObservationDisplay obs).value =
        (componentDisplay c0).2 ++ "/" ++ (componentDisplay c1).2) ∧
    (obs.component ≠ [] →
      ¬(obs.component.length = 2 ∧
        hasSub (lowerStr (resolveCC obs.code "Unknown")) "blood pressure" = true) →
      (getObservationDisplay obs).value =
        String.intercalate ", " (obs.component.map fun c =>
          (componentDisplay c).1 ++ ": " ++ (componentDisplay c).2)) := by
  constructor
  · intro c0 c1 hc hbp
    simp [getObservationDisplay, hc, hbp]
  · intro hne hnot
    have hpos : obs.component.length > 0 := List.length_pos.mpr hne
    have hcond : ¬((obs.component.map componentDisplay).length = 2 ∧
        hasSub (lowerStr (resolveCC obs.code "Unknown")) "blood pressure" = true) := by
      simpa [List.length_map] using hnot
    simp only [getObservationDisplay, gt_iff_lt, hpos, if_true, hcond, if_false,
      iff_false, eq_self_iff_true]
    rw [List.map_map]
    rfl

/-- Witness for C5 at the seed script's 200/110 blood-pressure observation:
the blood-pressure branch applies and renders "200 mmHg/110 mmHg". -/
theorem c5_observation_display_witness :
    (getObservationDisplay (bpObservation "p1" "2019-01-01" 200 110)).value =
      "200 mmHg/110 mmHg" :=
  ((c5_observation_display _).1 _ _ rfl (by decide)).trans (by decide)

/-- C6 counterexample: building from the valid lab input `gfr = "90.0"` and
displaying the result yields `"90 mL/min/1.73m2"` — the user-entered text
"90.0" is not recovered (the rendered value does not even contain it), so
the round-trip is not exact at the level of the entered strings. -/
theorem c6_roundtrip_counterexample :
    (labRequests pJohn fGfr90).map (fun o => (getObservationDisplay o).value) =
      ["90 mL/min/1.73m2"] ∧
    hasSub "90 mL/min/1.73m2" "90.0" = false ∧
    "90 mL/min/1.73m2" ≠ "90.0 mL/min/1.73m2" := by decide

/-- C6 (amended): a built Observation stores the parsed numeric value
exactly, and the formatter renders it as the canonical decimal string
followed by the unit — so the numeric value round-trips exactly, and the
entered text is recovered verbatim exactly when it is already canonical
(e.g. hemoglobin "14.5" renders as "14.5 g/dL", while "90.0" renders as
"90"). -/
theorem c6_roundtrip_amended (p : Patient) (f : LabForm) (v : ℚ)
    (hprov : jsProvided f.hemoglobin = true)
    (hparse : parseFloat f.hemoglobin = some v) (hnn : 0 ≤ v)
    (hgfr : jsProvided f.gfr = true → ∃ w : ℚ, parseFloat f.gfr = some w ∧ 0 ≤ w) :
    ∃ l o, labCollect p f = Except.ok l ∧ o ∈ l ∧
      o.valueQuantity = some { value := v, unit := some "g/dL",
                               system := some "http://unitsofmeasure.org",
                               code := some "g/dL" } ∧
      (getObservationDisplay o).value = renderNum v ++ " g/dL" := by
  have hdisp : ∀ o, o = createObservation p f.effectiveDateTime "718-7"
      "Hemoglobin [Mass/volume] in Blood" v "g/dL" "http://unitsofmeasure.org" →
      (getObservationDisplay o).value = renderNum v ++ " g/dL" := by
    rintro o rfl
    show renderNum v ++ " " ++ jsOrStr (some "g/dL") "" = renderNum v ++ " g/dL"
    rw [String.append_assoc]
    rfl
  cases hgp : jsProvided f.gfr with
  | false =>
    refine ⟨_, _, ?_, List.mem_singleton.mpr rfl, rfl, hdisp _ rfl⟩
    simp [labCollect, hgp, hprov, hparse, not_lt.mpr hnn]
  | true =>
    obtain ⟨w, hw, hwnn⟩ := hgfr hgp
    refine ⟨[createObservation p f.effectiveDateTime "33914-3"
      "Glomerular filtration rate/1.73 sq M.predicted" w "mL/min/1.73m2"
      "http://unitsofmeasure.org",
      createObservation p f.effectiveDateTime "718-7"
      "Hemoglobin [Mass/volume] in Blood" v "g/dL" "http://unitsofmeasure.org"],
      _, ?_, List.mem_cons.mpr (Or.inr (List.mem_singleton.mpr rfl)), rfl, hdisp _ rfl⟩
    simp [labCollect, hgp, hprov, hparse, hw, not_lt.mpr hnn, not_lt.mpr hwnn]

/-- Witness for C6 (amended) at hemoglobin = "14.5": the built Observation
carries the value 29/2 and displays as "14.5 g/dL". -/
theorem c6_roundtrip_amended_witness :
    ∃ l o, labCollect pJohn fHgb145 = Except.ok l ∧ o ∈ l ∧
      o.valueQuantity = some { value := mkRat 29 2, unit := some "g/dL",
                               system := some "http://unitsofmeasure.org",
                               code := some "g/dL" } ∧
      (getObservationDisplay o).value = "14.5 g/dL" := by
  have h := c6_roundtrip_amended pJohn fHgb145 (mkRat 29 2) (by decide) (by decide)
    (by decide) (fun hx => absurd hx (by decide))
  have e : renderNum (mkRat 29 2) ++ " g/dL" = "14.5 g/dL" := by decide
  simpa only [e] using h

/-- C7 counterexample: the seed script's blood-pressure observation (cited
by the claim) carries a single category whose code is "vital-signs", not
"laboratory" — so not every Observation created by this system has a
"laboratory" category. -/
theorem c7_invariants_counterexample :
    ((bpObservation "p1" "2019-01-01" 200 110).category.map
      (fun c => c.coding.map Coding.code)) = [["vital-signs"]] ∧
    ¬ ∃ c ∈ (bpObservation "p1" "2019-01-01" 200 110).category,
        ∃ k ∈ c.coding, k.code = "laboratory" := by decide

/-- C7 (amended): every Observation and Composition created by this system
carries a subject reference to the target patient and a performer/author
reference to the fixed organization id; the lab-value form's Observations
have exactly one "laboratory" category while the seed script's
blood-pressure Observations have exactly one "vital-signs" category; and
every created Composition has a non-empty section list (the form blocks
empty submissions, the seed script always writes five sections). -/
theorem c7_invariants_amended :
    (∀ (p : Patient) (effDate code display : String) (v : ℚ) (unit unitSystem : String),
      (createObservation p effDate code display v unit unitSystem).subject.map
        Reference.reference = some ("Patient/" ++ p.id) ∧
      (createObservation p effDate code display v unit unitSystem).performer.map
        Reference.reference = ["Organization/" ++ ORGANIZATION_ID] ∧
      (createObservation p effDate code display v unit unitSystem).category.map
        (fun c => c.coding.map Coding.code) = [["laboratory"]]) ∧
    (∀ (p : Patient) (f : ConsultForm),
      (createComposition p f).subject.reference = "Patient/" ++ p.id ∧
      (createComposition p f).author.map Reference.reference =
        ["Organization/" ++ ORGANIZATION_ID]) ∧
    (∀ (p : Patient) (f : ConsultForm) (comp : Composition),
      consultSubmitCheck p f = Except.ok comp → comp.sections ≠ []) ∧
    (∀ (pid effDate : String) (sys dia : ℚ),
      (bpObservation pid effDate sys dia).subject.map Reference.reference =
        some ("Patient/" ++ pid) ∧
      (bpObservation pid effDate sys dia).performer.map Reference.reference =
        ["Organization/" ++ ORGANIZATION_ID] ∧
      (bpObservation pid effDate sys dia).category.map
        (fun c => c.coding.map Coding.code) = [["vital-signs"]]) ∧
    (∀ (pid date : String) (c : ConsultEntry),
      (seedComposition pid date c).subject.reference = "Patient/" ++ pid ∧
      (seedComposition pid date c).author.map Reference.reference =
        ["Organization/" ++ ORGANIZATION_ID] ∧
      (seedComposition pid date c).sections ≠ []) := by
  refine ⟨fun p e c d v u us => ⟨rfl, rfl, rfl⟩,
    fun p f => ⟨rfl, rfl⟩, ?_,
    fun pid e s di => ⟨rfl, rfl, rfl⟩,
    fun pid date c => ⟨rfl, rfl, by simp [seedComposition]⟩⟩
  intro p f comp h
  by_cases h1 : f.chiefComplaint = "" ∧ f.assessment = "" ∧ f.plan = ""
  · rw [consultSubmitCheck, if_pos h1] at h
    cases h
  · rw [consultSubmitCheck, if_neg h1] at h
    by_cases h2 : (createComposition p f).sections.length = 0
    · rw [if_pos h2] at h
      cases h
    · rw [if_neg h2] at h
      obtain rfl : createComposition p f = comp := Except.ok.inj h
      intro hnil
      exact h2 (by rw [hnil]; rfl)

/-- Witness for C7 (amended): the consultation with only an assessment is
accepted and its Composition has a non-empty section list, and the concrete
lab Observation has the laboratory category. -/
theorem c7_invariants_amended_witness :
    (createComposition pJohn fAssessOnly).sections ≠ [] ∧
    (createObservation pJohn "2024-01-15" "33914-3"
      "Glomerular filtration rate/1.73 sq M.predicted" 90 "mL/min/1.73m2"
      "http://unitsofmeasure.org").category.map
        (fun c => c.coding.map Coding.code) = [["laboratory"]] :=
  ⟨c7_invariants_amended.2.2.1 pJohn fAssessOnly _ (by decide),
   (c7_invariants_amended.1 pJohn "2024-01-15" "33914-3"
     "Glomerular filtration rate/1.73 sq M.predicted" 90 "mL/min/1.73m2"
     "http://unitsofmeasure.org").2.2⟩

/-- C8: a non-2xx POST response surfaces an error message that contains the
HTTP status code and, when present, the response's first
OperationOutcome `issue[0].diagnostics` string — for the consultation
submission (single POST) and for the lab submission (aggregated over the
parallel POSTs) — and concretely a 422 response with diagnostics
"invalid code" yields a message containing both "422" and "invalid code". -/
theorem c8_error_surfacing :
    (∀ r : FhirResponse, r.ok = false →
      ∃ msg, consultationError r = some msg ∧
        hasSub msg (toString r.status) = true ∧
        (∀ d, r.diagnostics = some d → hasSub msg d = true)) ∧
    (∀ (observations : List Observation) (results : List FhirResponse)
        (o : Observation) (r : FhirResponse),
      (o, r) ∈ List.zip observations results → r.ok = false →
      ∃ msg, labSubmitOutcome observations results = some msg ∧
        hasSub msg (toString r.status) = true ∧
        (∀ d, r.diagnostics = some d → hasSub msg d = true)) ∧
    (∃ msg, consultationError resp422 = some msg ∧
      hasSub msg "422" = true ∧ hasSub msg "invalid code" = true) := by
  have hsub1 : ∀ (front : String) (st : Nat) (diag : Option String),
      hasSub (front ++ toString st ++ " " ++ jsOrStr diag "") (toString st) = true := by
    intro front st diag
    rw [String.append_assoc, String.append_assoc]
    exact hasSub_sandwich front (toString st) (" " ++ jsOrStr diag "")
  have hsub2 : ∀ (front : String) (st : Nat) (d : String),
      hasSub (front ++ toString st ++ " " ++ jsOrStr (some d) "") d = true := by
    intro front st d
    by_cases hd : d = ""
    · subst hd
      exact findSub_nil_pat _
    · have : jsOrStr (some d) "" = d := by simp [jsOrStr, hd]
      rw [this]
      exact hasSub_append_left _ _ _ (hasSub_self d)
  refine ⟨?_, ?_, ?_⟩
  · intro r hok
    refine ⟨"Failed to create consultation report: " ++ toString r.status ++ " " ++
      jsOrStr r.diagnostics "", ?_, ?_, ?_⟩
    · simp [consultationError, hok]
    · exact hsub1 "Failed to create consultation report: " r.status r.diagnostics
    · intro d hd
      rw [hd]
      exact hsub2 "Failed to create consultation report: " r.status d
  · intro observations results o r hmem hok
    have hin : labErrorMsg o r ∈ labErrors observations results := by
      unfold labErrors
      exact List.mem_filterMap.mpr ⟨(o, r), hmem, by simp [hok]⟩
    have hne : labErrors observations results ≠ [] := List.ne_nil_of_mem hin
    have hlen : (labErrors observations results).length > 0 := List.length_pos.mpr hne
    refine ⟨joinSep "; " (labErrors observations results), ?_, ?_, ?_⟩
    · unfold labSubmitOutcome
      rw [if_pos hlen]
    · refine hasSub_joinSep "; " (toString r.status) _ (labErrorMsg o r) hin ?_
      exact hsub1 ("Failed to create " ++ obsCodeText o ++ ": ") r.status r.diagnostics
    · intro d hd
      refine hasSub_joinSep "; " d _ (labErrorMsg o r) hin ?_
      have : labErrorMsg o r = "Failed to create " ++ obsCodeText o ++ ": " ++
          toString r.status ++ " " ++ jsOrStr (some d) "" := by rw [labErrorMsg, hd]
      rw [this]
      exact hsub2 ("Failed to create " ++ obsCodeText o ++ ": ") r.status d
  · exact ⟨"Failed to create consultation report: 422 invalid code",
      by decide, by decide, by decide⟩

/-- Witness for C8 at the concrete 422 response with diagnostics
"invalid code". -/
theorem c8_error_surfacing_witness :
    consultationError resp422 =
      some "Failed to create consultation report: 422 invalid code" ∧
    hasSub "Failed to create consultation report: 422 invalid code" "422" = true ∧
    hasSub "Failed to create consultation report: 422 invalid code"
      "invalid code" = true := by
  obtain ⟨msg, h1, h2, h3⟩ := c8_error_surfacing.1 resp422 rfl
  have hm : msg = "Failed to create consultation report: 422 invalid code" :=
    Option.some.inj (h1.symm.trans (by decide))
  subst hm
  have hst : toString resp422.status = "422" := by decide
  rw [hst] at h2
  exact ⟨h1, h2, h3 "invalid code" rfl⟩

/-- C9 counterexample: the cleanup phase's final request deletes the
Patient itself with the cascade flag enabled
(deleteResource of the Patient with cascade set to true), so cascade delete is not
used for the Condition and Procedure resource types only. -/
theorem c9_cleanup_counterexample :
    ¬ ∀ req ∈ patientDeletionPlan "p1" wFetched,
        req.cascade = true → req.rtype = "Condition" ∨ req.rtype = "Procedure" := by
  decide

/-- C9 (amended): for every patient the cleanup phase deletes dependent
resources in the explicit order DiagnosticReport, ServiceRequest,
MedicationRequest, Procedure, Composition, Observation, Condition before
the Patient itself, and cascade delete is used exactly for the Condition
and Procedure dependent resource types and additionally for the final
Patient deletion. -/
theorem c9_cleanup_amended (pid : String) (fetched : String → List String) :
    ((patientDeletionPlan pid fetched).map DeleteReq.rtype =
      (cleanupResourceTypes.flatMap fun rt =>
        List.replicate (fetched rt).length rt) ++ ["Patient"]) ∧
    ((patientDeletionPlan pid fetched).getLast? =
      some { rtype := "Patient", rid := pid, cascade := true }) ∧
    (∀ req ∈ patientDeletionPlan pid fetched,
      req.cascade = true ↔
        req.rtype = "Condition" ∨ req.rtype = "Procedure" ∨ req.rtype = "Patient") := by
  have hmapconst : ∀ (l : List String) (rt : String),
      (l.map fun rid => (⟨rt, rid, useCascade rt⟩ : DeleteReq)).map DeleteReq.rtype =
        List.replicate l.length rt := by
    intro l rt
    induction l with
    | nil => rfl
    | cons a tl ih => simp [ih, List.replicate_succ]
  refine ⟨?_, ?_, ?_⟩
  · unfold patientDeletionPlan
    rw [List.map_append, List.map_flatMap]
    simp only [hmapconst]
    rfl
  · unfold patientDeletionPlan
    rw [List.getLast?_append]
    rfl
  · intro req hreq
    unfold patientDeletionPlan at hreq
    rcases List.mem_append.mp hreq with hloop | hlast
    · obtain ⟨rt, hrt, hmem⟩ := List.mem_flatMap.mp hloop
      obtain ⟨rid, _, rfl⟩ := List.mem_map.mp hmem
      fin_cases hrt <;> simp [useCascade]
    · rcases List.mem_singleton.mp hlast with rfl
      simp

/-- Witness for C9 (amended) at a concrete fetched-resource map with one
Condition: the request order and the cascade flags of both requests. -/
theorem c9_cleanup_amended_witness :
    ((patientDeletionPlan "p1" wFetched).map DeleteReq.rtype =
      (cleanupResourceTypes.flatMap fun rt =>
        List.replicate (wFetched rt).length rt) ++ ["Patient"]) ∧
    ((patientDeletionPlan "p1" wFetched).getLast? =
      some { rtype := "Patient", rid := "p1", cascade := true }) ∧
    (({ rtype := "Patient", rid := "p1", cascade := true } : DeleteReq).cascade = true ↔
      ({ rtype := "Patient", rid := "p1", cascade := true } : DeleteReq).rtype = "Condition" ∨
      ({ rtype := "Patient", rid := "p1", cascade := true } : DeleteReq).rtype = "Procedure" ∨
      ({ rtype := "Patient", rid := "p1", cascade := true } : DeleteReq).rtype = "Patient") :=
  ⟨(c9_cleanup_amended "p1" wFetched).1,
   (c9_cleanup_amended "p1" wFetched).2.1,
   (c9_cleanup_amended "p1" wFetched).2.2 _ (by decide)⟩

/-- C10 counterexample: for a MedicationRequest whose first dosage
instruction has no `text` but a present `timing.repeat` (frequency 2, unit
"d"), the formatter returns exactly the frequency-based dosage string
"2x per d" — so it is not the case that the frequency string is never
used in this situation. -/
theorem c10_dosage_counterexample :
    (getMedicationDisplay medNoText).map MedDisplay.dosage = some "2x per d" := by
  decide

/-- C10 (amended): because `||` binds tighter than `?:`, the dosage
conditional is `(text || timing.repeat) ? frequencyString : 'As directed'`;
hence whenever `dosageInstruction[0].text` is absent (or empty) and
`timing.repeat` is present, the formatter always returns the
frequency-based dosage string "{frequency}x per {periodUnit}" (with the
falsy-defaults 1 and "day") — the opposite of the claimed "never" — and the
raw dosage text is never used as the dosage. -/
theorem c10_dosage_amended (m : MedicationRequest) (di : DosageInstruction)
    (t : Timing) (r : RepeatSpec)
    (h0 : m.dosageInstruction.head? = some di)
    (htext : di.text = none ∨ di.text = some "")
    (ht : di.timing = some t) (hr : t.rep = some r) :
    (getMedicationDisplay m).map MedDisplay.dosage =
      some (renderNum (jsNumOr r.frequency 1) ++ "x per " ++
        jsOrStr r.periodUnit "day") := by
  have htt : strTruthy (m.dosageInstruction.head?.bind DosageInstruction.text) = false := by
    rcases htext with h | h <;> simp [h0, h, strTruthy]
  have hrep : (m.dosageInstruction.head?.bind DosageInstruction.timing).bind Timing.rep =
      some r := by
    simp [h0, ht, hr]
  simp [getMedicationDisplay, htt, hrep]

/-- Witness for C10 (amended) at the concrete no-text MedicationRequest:
the dosage renders as "2x per d". -/
theorem c10_dosage_amended_witness :
    (getMedicationDisplay medNoText).map MedDisplay.dosage = some "2x per d" := by
  have h := c10_dosage_amended medNoText diNoText timingTwice repTwice rfl
    (Or.inl rfl) rfl rfl
  exact h.trans (by decide)

end EHR
